import Mathlib

/-!
# Verification of the kamiyo-ai/security-oracle risk pipeline

Shallow embedding of the risk-assessment core of the repository:

* `src/index.ts` — `calculateRiskScore`, `fetchKamiyoExploits`, and the
  `/.well-known/x402` discovery handler;
* `src/services/risk-detector.ts` — `RiskDetector.detectRisks` and
  `RiskDetector.checkProtocolExploitHistory`.

Conventions of the embedding:

* JavaScript `number` values are modelled as rationals (`ℚ`).  The one place
  where binary64 rounding is observable to a claim (the lamport price printed
  by the discovery document) is modelled with an explicit IEEE-754
  round-to-nearest-even step (`fp64`).
* A record's `timestamp` / `last_updated` field is modelled as the numeric
  value `new Date(s).getTime()` yields for it — milliseconds since the epoch —
  and `Date.now()` is passed in as an explicit `now` parameter, which makes
  every function pure.
* `Math.round` is Mathlib's `round` (`⌊x + 1/2⌋`): both round halves up.
* A call into the data service that may throw is modelled with `Except`; a
  `try`/`catch` becomes a `match` on the `Except` value.
-/

namespace SecurityOracle

/-- The `severity` union type `'critical' | 'high' | 'medium' | 'low'` of
`ExploitData` (src/index.ts) and of `RiskFlag` severities. -/
inductive Severity where
  | critical
  | high
  | medium
  | low
deriving DecidableEq

/-- `ExploitData` (src/index.ts, lines 36-44); `timestamp` is the parsed
millisecond value of the ISO-8601 string. -/
structure ExploitData where
  protocol : String
  chain : String
  severity : Severity
  loss_usd : ℚ
  timestamp : ℚ
  description : String
  attack_vector : String
deriving DecidableEq

/-- The `risk_level` union `'CRITICAL' | 'HIGH' | 'MEDIUM' | 'LOW'`. -/
inductive RiskLevel where
  | CRITICAL
  | HIGH
  | MEDIUM
  | LOW
deriving DecidableEq

/-- The `factors` object of `RiskScore` (src/index.ts, lines 53-58).  The
`severity_distribution` JS record has only the four severity literals as
possible keys, so it is modelled as a partial map on `Severity`: `none`
models an absent key. -/
structure RiskFactors where
  exploit_frequency : ℤ
  total_loss : ℤ
  recency : ℤ
  severity_distribution : Severity → Option ℕ

/-- `RiskScore` (src/index.ts, lines 46-59). -/
structure RiskScore where
  protocol : String
  score : ℤ
  risk_level : RiskLevel
  recent_exploits : ℕ
  total_loss_usd : ℤ
  recommendation : String
  factors : RiskFactors

/-! ## calculateRiskScore (src/index.ts, lines 78-144)

Each `const` local of the source function becomes a top-level definition of
the same name, taking `now` and the exploit list as parameters. -/

/-- `recentExploits`: records with parsed timestamp strictly after
`now - 30 * 24 * 60 * 60 * 1000`. -/
def recentExploits (now : ℚ) (exploits : List ExploitData) : List ExploitData :=
  exploits.filter (fun e => now - 30 * 24 * 60 * 60 * 1000 < e.timestamp)

/-- `totalLoss`: `exploits.reduce((sum, e) => sum + (e.loss_usd || 0), 0)`.
The `|| 0` only guards a missing field; in the typed model `loss_usd` is
always present (and `0 || 0` is `0`). -/
def totalLoss (exploits : List ExploitData) : ℚ :=
  exploits.foldl (fun sum e => sum + e.loss_usd) 0

/-- `severityDist`: the reduce that builds `acc[e.severity] =
(acc[e.severity] || 0) + 1` starting from the empty record. -/
def severityDist (exploits : List ExploitData) : Severity → Option ℕ :=
  exploits.foldl
    (fun acc e => fun s =>
      if s = e.severity then some ((acc e.severity).getD 0 + 1) else acc s)
    (fun _ => none)

/-- `exploitFrequencyScore = Math.min((recentExploits.length / 10) * 100, 100)`. -/
def exploitFrequencyScore (now : ℚ) (exploits : List ExploitData) : ℚ :=
  min (((recentExploits now exploits).length : ℚ) / 10 * 100) 100

/-- `totalLossScore = Math.min((totalLoss / 10_000_000) * 100, 100)`. -/
def totalLossScore (exploits : List ExploitData) : ℚ :=
  min (totalLoss exploits / 10000000 * 100) 100

/-- `daysSinceLatest`: computed from `exploits[0]` (the FIRST element of the
sequence, whatever its order); `999` when the sequence is empty. -/
def daysSinceLatest (now : ℚ) (exploits : List ExploitData) : ℚ :=
  match exploits.head? with
  | some latestExploit => (now - latestExploit.timestamp) / (24 * 60 * 60 * 1000)
  | none => 999

/-- `recencyScore = daysSinceLatest < 7 ? 100 : daysSinceLatest < 30 ? 50 : 0`. -/
def recencyScore (now : ℚ) (exploits : List ExploitData) : ℚ :=
  if daysSinceLatest now exploits < 7 then 100
  else if daysSinceLatest now exploits < 30 then 50
  else 0

/-- `riskScore = exploitFrequencyScore * 0.4 + totalLossScore * 0.3 +
recencyScore * 0.3` (the unrounded weighted sum). -/
def riskScore (now : ℚ) (exploits : List ExploitData) : ℚ :=
  exploitFrequencyScore now exploits * 0.4
    + totalLossScore exploits * 0.3
    + recencyScore now exploits * 0.3

/-- `riskLevel`: the `if (riskScore >= 75) ...` cascade on the UNROUNDED
`riskScore` (src/index.ts, lines 116-128). -/
def riskLevel (now : ℚ) (exploits : List ExploitData) : RiskLevel :=
  if 75 ≤ riskScore now exploits then .CRITICAL
  else if 50 ≤ riskScore now exploits then .HIGH
  else if 25 ≤ riskScore now exploits then .MEDIUM
  else .LOW

/-- `recommendation`: assigned in the same cascade as `riskLevel`. -/
def recommendation (now : ℚ) (exploits : List ExploitData) : String :=
  if 75 ≤ riskScore now exploits then "AVOID - High exploit risk detected"
  else if 50 ≤ riskScore now exploits then "CAUTION - Significant security concerns"
  else if 25 ≤ riskScore now exploits then "MONITOR - Some historical issues"
  else "ACCEPTABLE - Low risk profile"

/-- `calculateRiskScore` (src/index.ts, lines 78-144): the returned object. -/
def calculateRiskScore (now : ℚ) (exploits : List ExploitData)
    (protocol : String) : RiskScore :=
  { protocol := protocol
    score := round (riskScore now exploits)
    risk_level := riskLevel now exploits
    recent_exploits := (recentExploits now exploits).length
    total_loss_usd := round (totalLoss exploits)
    recommendation := recommendation now exploits
    factors :=
      { exploit_frequency := round (exploitFrequencyScore now exploits)
        total_loss := round (totalLossScore exploits)
        recency := round (recencyScore now exploits)
        severity_distribution := severityDist exploits } }

/-! ## fetchKamiyoExploits (src/index.ts, lines 61-76)

The awaited outcome of `dataService.fetchExploits` is passed in as an
`Except` value; the `try`/`catch` that maps any thrown error to `[]` is the
`match`. -/

/-- `fetchKamiyoExploits`: returns the fetched list, or `[]` if the data
service threw. -/
def fetchKamiyoExploits (result : Except String (List ExploitData)) :
    List ExploitData :=
  match result with
  | .ok exploits => exploits
  | .error _ => []

/-! ## The x402 discovery document (src/index.ts, lines 194-331)

`maxAmountRequired` is `String(PRICE_PER_REQUEST_SOL * 1_000_000_000)` where
`PRICE_PER_REQUEST_SOL = 0.001`: a binary64 multiplication.  It is modelled
exactly: `fp64` rounds a positive rational to the nearest IEEE-754 binary64
value (53-bit significand, round half to even, exponent unbounded — correct
for all values far from overflow/subnormal range, as here). -/

/-- Round a rational to the nearest integer, halves to even (the IEEE-754
default rounding of the fractional significand). -/
def rne (x : ℚ) : ℤ :=
  if x - ⌊x⌋ < 1 / 2 then ⌊x⌋
  else if 1 / 2 < x - ⌊x⌋ then ⌊x⌋ + 1
  else if ⌊x⌋ % 2 = 0 then ⌊x⌋ else ⌊x⌋ + 1

/-- The binary64 value nearest a positive rational: the significand grid at
the binade of `x` has unit `2 ^ (⌊log₂ x⌋ - 52)`. -/
def fp64 (x : ℚ) : ℚ :=
  if x = 0 then 0
  else (rne (x / 2 ^ (Int.log 2 x - 52)) : ℚ) * 2 ^ (Int.log 2 x - 52)

/-- `const PRICE_PER_REQUEST_SOL = 0.001` (src/index.ts, line 34): the
binary64 value of the literal. -/
def PRICE_PER_REQUEST_SOL : ℚ := fp64 (1 / 1000)

/-- `PRICE_PER_REQUEST_SOL * 1_000_000_000`: a binary64 product, so the exact
rational product rounded back to binary64. -/
def priceLamports : ℚ := fp64 (PRICE_PER_REQUEST_SOL * 1000000000)

/-- JS `String(x)` for the numbers this program prints: an integral binary64
in this range is printed as its decimal integer with no fractional part. -/
def jsNumberToString (q : ℚ) : String :=
  if q.den = 1 then toString q.num else toString q

/-- One element of the `accepts` array of the discovery document.  The
constant-object fields `outputSchema` and `extra` carry no data a claim
mentions and are left out of the model. -/
structure ResourceDescriptor where
  scheme : String
  network : String
  maxAmountRequired : String
  resource : String
  description : String
  mimeType : String
  payTo : String
  maxTimeoutSeconds : ℕ
  asset : String

/-- The JSON body returned by `app.all('/.well-known/x402', ...)` together
with its HTTP status. -/
structure DiscoveryDoc where
  status : ℕ
  x402Version : ℕ
  accepts : List ResourceDescriptor

/-- The discovery handler (src/index.ts, lines 194-331), as a function of the
request-derived `baseUrl` and the configured `PAYMENT_WALLET`. -/
def x402Discovery (baseUrl PAYMENT_WALLET : String) : DiscoveryDoc :=
  { status := 402
    x402Version := 1
    accepts :=
      [ { scheme := "exact"
          network := "solana"
          maxAmountRequired := jsNumberToString priceLamports
          resource := baseUrl ++ "/approval-audit"
          description := "Audit wallet token approvals and identify malicious or risky approvals"
          mimeType := "application/json"
          payTo := PAYMENT_WALLET
          maxTimeoutSeconds := 300
          asset := "SOL" },
        { scheme := "exact"
          network := "solana"
          maxAmountRequired := jsNumberToString priceLamports
          resource := baseUrl ++ "/exploits"
          description := "Real-time DeFi exploit intelligence from 20+ sources"
          mimeType := "application/json"
          payTo := PAYMENT_WALLET
          maxTimeoutSeconds := 300
          asset := "SOL" },
        { scheme := "exact"
          network := "solana"
          maxAmountRequired := jsNumberToString priceLamports
          resource := baseUrl ++ "/risk-score/\x7bprotocol\x7d"
          description := "Calculate risk score for DeFi protocols based on exploit history"
          mimeType := "application/json"
          payTo := PAYMENT_WALLET
          maxTimeoutSeconds := 300
          asset := "SOL" } ] }

/-! ## RiskDetector (src/services/risk-detector.ts)

`dataService.fetchExploits(protocol, undefined)` is passed in as a function
`fetchExploits : String → Except String (List ExploitData)` (it may throw);
the `knownScamAddresses` set is passed as a list (the constructor initialises
it empty, `addScamAddress` inserts lowercased entries). -/

/-- JS `String.prototype.toLowerCase()` for the ASCII addresses this service
compares: lowercase every character. -/
def jsToLowerCase (s : String) : String :=
  ⟨s.data.map Char.toLower⟩

/-- The `type` field of `RiskFlag`. -/
inductive RiskType where
  | unlimited
  | stale
  | exploited_protocol
  | suspicious_spender
deriving DecidableEq

/-- `RiskFlag` (src/types/approval.types.ts, as used by risk-detector.ts). -/
structure RiskFlag where
  type : RiskType
  severity : Severity
  description : String
deriving DecidableEq

/-- `TokenApproval`, with `last_updated` as parsed milliseconds. -/
structure TokenApproval where
  token_address : String
  token_symbol : String
  spender_address : String
  allowance : String
  is_unlimited : Bool
  last_updated : ℚ
deriving DecidableEq

/-- The static router-address-to-protocol table `protocolMap`
(src/services/risk-detector.ts, lines 82-89): a plain JS object, so lookup is
exact, case-sensitive string equality on the key. -/
def protocolMap (spenderAddress : String) : Option String :=
  if spenderAddress = "0x7a250d5630B4cF539739dF2C5dAcb4c659F2488D" then some "uniswap-v2"
  else if spenderAddress = "0xE592427A0AEce92De3Edee1F18E0157C05861564" then some "uniswap-v3"
  else if spenderAddress = "0x68b3465833fb72A70ecDF485E0e4C7bD8665Fc45" then some "uniswap"
  else if spenderAddress = "0xd9e1cE17f2641f24aE83637ab66a2cca9C378B9F" then some "sushiswap"
  else if spenderAddress = "0x1111111254fb6c44bAC0beD2854e76F90643097d" then some "1inch"
  else if spenderAddress = "0xDef1C0ded9bec7F1a1670819833240f027b25EfF" then some "0x"
  else none

/-- `checkProtocolExploitHistory` (src/services/risk-detector.ts, lines
77-145).  The surrounding `try`/`catch` returns `null` on a thrown fetch. -/
def checkProtocolExploitHistory (now : ℚ)
    (fetchExploits : String → Except String (List ExploitData))
    (spenderAddress : String) : Option RiskFlag :=
  match protocolMap spenderAddress with
  | none => none
  | some protocol =>
    match fetchExploits protocol with
    | .error _ => none
    | .ok exploits =>
      if exploits.length = 0 then none
      else
        let recentExploits90 :=
          exploits.filter (fun e => now - 90 * 24 * 60 * 60 * 1000 < e.timestamp)
        if 0 < recentExploits90.length then
          let criticalExploits :=
            recentExploits90.filter
              (fun e => e.severity = Severity.critical ∨ e.severity = Severity.high)
          if 0 < criticalExploits.length then
            some { type := .exploited_protocol
                   severity := .critical
                   description := "Protocol " ++ protocol ++ " has had "
                     ++ toString criticalExploits.length
                     ++ " critical/high severity exploit(s) in the last 90 days. Exercise extreme caution." }
          else
            some { type := .exploited_protocol
                   severity := .high
                   description := "Protocol " ++ protocol ++ " has had "
                     ++ toString recentExploits90.length
                     ++ " exploit(s) in the last 90 days. Review before interaction." }
        else if 0 < exploits.length then
          some { type := .exploited_protocol
                 severity := .medium
                 description := "Protocol " ++ protocol
                   ++ " has historical exploit records. Total incidents: "
                   ++ toString exploits.length ++ "." }
        else none

/-- `getDaysSince` (src/services/risk-detector.ts, lines 147-152). -/
def getDaysSince (now dateMs : ℚ) : ℚ :=
  (now - dateMs) / (1000 * 60 * 60 * 24)

/-- The `unlimited` flag pushed for `is_unlimited` approvals. -/
def unlimitedFlag (approval : TokenApproval) : RiskFlag :=
  { type := .unlimited
    severity := .high
    description := "Unlimited approval granted to " ++ approval.spender_address
      ++ ". This allows the spender to drain all tokens." }

/-- The `stale` flag pushed when `daysSinceUpdate > staleThresholdDays`. -/
def staleFlag (now : ℚ) (approval : TokenApproval) : RiskFlag :=
  { type := .stale
    severity := .medium
    description := "Approval is "
      ++ toString (round (getDaysSince now approval.last_updated))
      ++ " days old. Consider revoking unused approvals." }

/-- The `suspicious_spender` flag. -/
def suspiciousFlag : RiskFlag :=
  { type := .suspicious_spender
    severity := .critical
    description := "Spender address is flagged as suspicious or malicious. Revoke immediately." }

/-- The `risks` list the body of the `detectRisks` loop builds for one
approval (src/services/risk-detector.ts, lines 22-61): unlimited check, stale
check (`staleThresholdDays = 180`), exploit-history check, then the
deny-list check on the LOWERCASED spender address. -/
def approvalRisks (now : ℚ)
    (fetchExploits : String → Except String (List ExploitData))
    (knownScamAddresses : List String) (approval : TokenApproval) :
    List RiskFlag :=
  (if approval.is_unlimited then [unlimitedFlag approval] else [])
  ++ (if 180 < getDaysSince now approval.last_updated then [staleFlag now approval] else [])
  ++ (match checkProtocolExploitHistory now fetchExploits approval.spender_address with
      | some exploitRisk => [exploitRisk]
      | none => [])
  ++ (if knownScamAddresses.contains (jsToLowerCase approval.spender_address)
      then [suspiciousFlag] else [])

/-- The `riskMap` key: `` `${approval.token_address}-${approval.spender_address}` ``. -/
def approvalKey (approval : TokenApproval) : String :=
  approval.token_address ++ "-" ++ approval.spender_address

/-- One iteration of the `detectRisks` loop: write `riskMap[key] = risks`
only when `risks.length > 0`. -/
def detectStep (now : ℚ)
    (fetchExploits : String → Except String (List ExploitData))
    (knownScamAddresses : List String)
    (riskMap : String → Option (List RiskFlag)) (approval : TokenApproval) :
    String → Option (List RiskFlag) :=
  let risks := approvalRisks now fetchExploits knownScamAddresses approval
  if 0 < risks.length then
    fun k => if k = approvalKey approval then some risks else riskMap k
  else riskMap

/-- `detectRisks` (src/services/risk-detector.ts, lines 17-75).  The JS
`Record` result is modelled by its lookup function (the claims only concern
per-key contents and absence); an entry is written only when `risks.length >
0`, later writes to the same key overwrite earlier ones. -/
def detectRisks (now : ℚ)
    (fetchExploits : String → Except String (List ExploitData))
    (knownScamAddresses : List String) (approvals : List TokenApproval) :
    String → Option (List RiskFlag) :=
  approvals.foldl (detectStep now fetchExploits knownScamAddresses) (fun _ => none)

/-! ## Spec-side definitions

Definitions that follow the SPEC's words rather than the code, used to
compare the two where a claim asserts they agree. -/

/-- The spec's recency component: decided by the single most recent record by
TIMESTAMP (sequence order irrelevant); 0 when there are no records
(spec §4.4 step 4). -/
def specRecencyScore (now : ℚ) (exploits : List ExploitData) : ℚ :=
  match exploits with
  | [] => 0
  | e :: rest =>
    let latest := rest.foldl (fun m x => max m x.timestamp) e.timestamp
    if (now - latest) / (24 * 60 * 60 * 1000) < 7 then 100
    else if (now - latest) / (24 * 60 * 60 * 1000) < 30 then 50
    else 0

/-- The claim's reading of the level thresholds: applied to the RETURNED
integer score (C2's "score >= 75 gives CRITICAL", etc.). -/
def specLevelOfScore (score : ℤ) : RiskLevel :=
  if 75 ≤ score then .CRITICAL
  else if 50 ≤ score then .HIGH
  else if 25 ≤ score then .MEDIUM
  else .LOW

/-- The recommendation table of the spec, applied to the returned integer
score. -/
def specRecommendationOfScore (score : ℤ) : String :=
  if 75 ≤ score then "AVOID - High exploit risk detected"
  else if 50 ≤ score then "CAUTION - Significant security concerns"
  else if 25 ≤ score then "MONITOR - Some historical issues"
  else "ACCEPTABLE - Low risk profile"

/-- The level thresholds applied to the UNROUNDED weighted sum — what the
code actually does (the amended form of C2). -/
def specLevelOfRawScore (s : ℚ) : RiskLevel :=
  if 75 ≤ s then .CRITICAL
  else if 50 ≤ s then .HIGH
  else if 25 ≤ s then .MEDIUM
  else .LOW

/-- The recommendation thresholds applied to the unrounded weighted sum. -/
def specRecommendationOfRawScore (s : ℚ) : String :=
  if 75 ≤ s then "AVOID - High exploit risk detected"
  else if 50 ≤ s then "CAUTION - Significant security concerns"
  else if 25 ≤ s then "MONITOR - Some historical issues"
  else "ACCEPTABLE - Low risk profile"

/-- The recency component the code computes, read off the FIRST record of the
sequence — the amended form of C1. -/
def headRecencyScore (now : ℚ) (exploits : List ExploitData) : ℤ :=
  match exploits.head? with
  | none => 0
  | some e =>
    if (now - e.timestamp) / (24 * 60 * 60 * 1000) < 7 then 100
    else if (now - e.timestamp) / (24 * 60 * 60 * 1000) < 30 then 50
    else 0

/-- The six keys of `protocolMap`, in source order. -/
def protocolMapKeys : List String :=
  [ "0x7a250d5630B4cF539739dF2C5dAcb4c659F2488D",
    "0xE592427A0AEce92De3Edee1F18E0157C05861564",
    "0x68b3465833fb72A70ecDF485E0e4C7bD8665Fc45",
    "0xd9e1cE17f2641f24aE83637ab66a2cca9C378B9F",
    "0x1111111254fb6c44bAC0beD2854e76F90643097d",
    "0xDef1C0ded9bec7F1a1670819833240f027b25EfF" ]

/-! ## Concrete inputs for counterexamples and witnesses

All times are relative to `now = 0`; one day is `86400000` ms. -/

/-- A 100-day-old low-severity record (0 USD loss). -/
def olderExploit : ExploitData :=
  { protocol := "demo", chain := "ethereum", severity := .low, loss_usd := 0,
    timestamp := -8640000000, description := "older incident",
    attack_vector := "flash loan" }

/-- A 3-day-old low-severity record (0 USD loss). -/
def newerExploit : ExploitData :=
  { protocol := "demo", chain := "ethereum", severity := .low, loss_usd := 0,
    timestamp := -259200000, description := "newer incident",
    attack_vector := "oracle manipulation" }

/-- A 3-day-old low-severity record with a given USD loss. -/
def recentLossExploit (loss : ℚ) : ExploitData :=
  { protocol := "demo", chain := "ethereum", severity := .low,
    loss_usd := loss, timestamp := -259200000,
    description := "recent incident", attack_vector := "reentrancy" }

/-- The input that drives the raw weighted sum to 74.8: four records inside
the 30-day window (frequency score 40), 9.6M USD total loss (loss score 96),
first record 3 days old (recency 100). -/
def boundaryExploits : List ExploitData :=
  [ recentLossExploit 9600000, recentLossExploit 0,
    recentLossExploit 0, recentLossExploit 0 ]

/-- The spec §8 example record: critical severity, 5M USD loss, 3 days before
`now`. -/
def specExampleExploit (now : ℚ) : ExploitData :=
  { protocol := "example-protocol", chain := "ethereum", severity := .critical,
    loss_usd := 5000000, timestamp := now - 259200000,
    description := "spec example", attack_vector := "bridge" }

/-- A 3-day-old critical exploit attributed to uniswap-v2. -/
def uniswapCriticalExploit : ExploitData :=
  { protocol := "uniswap-v2", chain := "ethereum", severity := .critical,
    loss_usd := 1000000, timestamp := -259200000,
    description := "recent critical incident", attack_vector := "reentrancy" }

/-- An unlimited approval last updated 200 days before `now = 17280000000`. -/
def staleUnlimitedApproval : TokenApproval :=
  { token_address := "0xToken", token_symbol := "TKN",
    spender_address := "0xSpender",
    allowance := "0xffffffffffffffffffffffffffffffffffffffffffffffffffffffffffffffff",
    is_unlimited := true, last_updated := 0 }

/-- A fresh, limited approval to an unknown spender: triggers no rule. -/
def cleanApproval : TokenApproval :=
  { token_address := "0xToken2", token_symbol := "TK2",
    spender_address := "0xNobody", allowance := "1000",
    is_unlimited := false, last_updated := 17280000000 }

/-- A data service whose every source failed for every protocol. -/
def fetchAllFail : String → Except String (List ExploitData) :=
  fun _ => .error "all sources failed"

/-- A data service that knows one recent critical uniswap-v2 exploit. -/
def fetchUniswapHistory : String → Except String (List ExploitData) :=
  fun protocol =>
    if protocol = "uniswap-v2" then .ok [uniswapCriticalExploit] else .ok []

/-- The all-lowercase form of the checksummed uniswap-v2 router key. -/
def lowercasedUniswapRouter : String :=
  "0x7a250d5630b4cf539739df2c5dacb4c659f2488d"

/-- An approval whose spender is the checksummed uniswap-v2 router key. -/
def routerApproval : TokenApproval :=
  { token_address := "0xToken", token_symbol := "TKN",
    spender_address := "0x7a250d5630B4cF539739dF2C5dAcb4c659F2488D",
    allowance := "1", is_unlimited := false, last_updated := 0 }

/-! ## Helper lemmas -/

/-- Pin down `round` on a rational from two numeric bounds. -/
theorem round_eq_of (q : ℚ) (z : ℤ) (h1 : (z:ℚ) ≤ q + 1/2) (h2 : q + 1/2 < z + 1) :
    round q = z := by
  rw [round_eq, Int.floor_eq_iff]
  exact ⟨h1, h2⟩

/-- Pin down `Int.log 2` on a rational from the two binade bounds. -/
theorem log2_eq_of_binade {r : ℚ} {e : ℤ} (hr : 0 < r)
    (h1 : (2:ℚ)^e ≤ r) (h2 : r < (2:ℚ)^(e+1)) : Int.log 2 r = e := by
  refine le_antisymm ?_ ((Int.zpow_le_iff_le_log (by norm_num) hr).mp (by exact_mod_cast h1))
  have h3 := (Int.lt_zpow_iff_log_lt (b := 2) (by norm_num) hr).mp (by exact_mod_cast h2)
  omega

/-- The `reduce` computing `totalLoss` is the sum of the `loss_usd` fields. -/
theorem foldl_loss_eq_sum (l : List ExploitData) (a : ℚ) :
    l.foldl (fun sum e => sum + e.loss_usd) a = a + (l.map ExploitData.loss_usd).sum := by
  induction l generalizing a with
  | nil => simp
  | cons e rest ih => simp [ih, add_assoc]

theorem totalLoss_eq_sum (l : List ExploitData) :
    totalLoss l = (l.map ExploitData.loss_usd).sum := by
  simp [totalLoss, foldl_loss_eq_sum]

/-- A run of the `detectRisks` loop over approvals none of which writes key
`k` leaves the map unchanged at `k`. -/
theorem detect_foldl_skip (now : ℚ)
    (fetch : String → Except String (List ExploitData)) (scam : List String) :
    ∀ (as : List TokenApproval) (m : String → Option (List RiskFlag)) (k : String),
      (∀ b ∈ as, approvalKey b = k → approvalRisks now fetch scam b = []) →
      as.foldl (detectStep now fetch scam) m k = m k := by
  intro as
  induction as with
  | nil => intro m k _; rfl
  | cons b rest ih =>
    intro m k h
    rw [List.foldl_cons, ih _ k fun b' hb' => h b' (List.mem_cons_of_mem _ hb')]
    rw [detectStep]
    split
    · rename_i hlen
      by_cases hk : k = approvalKey b
      · have := h b (List.mem_cons_self _ _) hk.symm
        simp [this] at hlen
      · simp [hk]
    · rfl

/-- A run of the `detectRisks` loop lands `approvalRisks a` at `a`'s key when
`a` occurs in the list, its key occurs for no other approval, and its risk
list is nonempty. -/
theorem detect_foldl_found (now : ℚ)
    (fetch : String → Except String (List ExploitData)) (scam : List String) :
    ∀ (as : List TokenApproval) (m : String → Option (List RiskFlag))
      (a : TokenApproval), a ∈ as →
      (∀ b ∈ as, approvalKey b = approvalKey a → b = a) →
      approvalRisks now fetch scam a ≠ [] →
      as.foldl (detectStep now fetch scam) m (approvalKey a) =
        some (approvalRisks now fetch scam a) := by
  intro as
  induction as with
  | nil => intro m a ha; exact absurd ha (List.not_mem_nil a)
  | cons b rest ih =>
    intro m a ha huniq hne
    by_cases hmem : a ∈ rest
    · rw [List.foldl_cons]
      exact ih _ a hmem (fun b' hb' => huniq b' (List.mem_cons_of_mem _ hb')) hne
    · have hab : b = a := by
        rcases List.mem_cons.mp ha with h | h
        · exact h.symm
        · exact absurd h hmem
      subst hab
      rw [List.foldl_cons, detect_foldl_skip now fetch scam rest _ _ ?_]
      · rw [detectStep]
        have hlen : 0 < (approvalRisks now fetch scam b).length :=
          List.length_pos.mpr hne
        rw [if_pos hlen]
        simp
      · intro b' hb' hkey
        have hb : b' = b := huniq b' (List.mem_cons_of_mem _ hb') hkey
        exact absurd (hb ▸ hb') hmem

/-- A nonempty filtered sublist is exactly an element satisfying the
predicate. -/
theorem length_filter_pos_iff {α : Type} (l : List α) (p : α → Prop)
    [DecidablePred p] :
    0 < (l.filter (fun a => p a)).length ↔ ∃ a ∈ l, p a := by
  rw [List.length_pos]
  constructor
  · intro h
    obtain ⟨a, ha⟩ := List.exists_mem_of_ne_nil _ h
    obtain ⟨h1, h2⟩ := List.mem_filter.mp ha
    exact ⟨a, h1, of_decide_eq_true h2⟩
  · rintro ⟨a, ha, hp⟩ hnil
    have hmem : a ∈ l.filter (fun a => p a) :=
      List.mem_filter.mpr ⟨ha, decide_eq_true hp⟩
    rw [hnil] at hmem
    exact List.not_mem_nil a hmem

/-- The `severityDist` reduce, run from any accumulator: at `s` it leaves the
accumulator alone when no record has severity `s`, and otherwise adds the
number of such records to the accumulator's count (0 for an absent key). -/
theorem severityDist_foldl (s : Severity) :
    ∀ (l : List ExploitData) (acc : Severity → Option ℕ),
      (l.foldl
        (fun acc e => fun s =>
          if s = e.severity then some ((acc e.severity).getD 0 + 1) else acc s)
        acc) s =
      if (l.filter (fun e => e.severity = s)).length = 0 then acc s
      else some ((acc s).getD 0 + (l.filter (fun e => e.severity = s)).length) := by
  intro l
  induction l with
  | nil => intro acc; simp
  | cons e rest ih =>
    intro acc
    rw [List.foldl_cons, ih]
    by_cases hs : e.severity = s
    · subst hs
      simp only [List.filter_cons, decide_eq_true_eq, if_pos rfl]
      by_cases hc : (rest.filter (fun x => x.severity = e.severity)).length = 0 <;>
        simp [hc, Nat.add_comm, Nat.add_assoc, Nat.add_left_comm]
    · have hne : s ≠ e.severity := fun h => hs h.symm
      simp only [List.filter_cons, decide_eq_true_eq, if_neg hs, if_neg hne]

/-- `severityDist` maps `s` to the count of records with severity `s`, or to
`none` when that count is zero. -/
theorem severityDist_eq (exs : List ExploitData) (s : Severity) :
    severityDist exs s =
      if (exs.filter (fun e => e.severity = s)).length = 0 then none
      else some (exs.filter (fun e => e.severity = s)).length := by
  rw [severityDist, severityDist_foldl]
  by_cases hc : (exs.filter (fun e => e.severity = s)).length = 0 <;> simp [hc]

/-- Every record has exactly one of the four severities. -/
theorem severity_count_partition :
    ∀ exs : List ExploitData,
      (exs.filter (fun e => e.severity = Severity.critical)).length
      + (exs.filter (fun e => e.severity = Severity.high)).length
      + (exs.filter (fun e => e.severity = Severity.medium)).length
      + (exs.filter (fun e => e.severity = Severity.low)).length = exs.length := by
  intro exs
  induction exs with
  | nil => simp
  | cons e rest ih =>
    cases h : e.severity <;> simp [List.filter_cons, h] <;> omega

/-- The binary64 value of the literal `0.001`, as an exact rational:
`4611686018427388 * 2 ^ (-62)`. -/
theorem price_sol_eq :
    PRICE_PER_REQUEST_SOL = 4611686018427388 / 4611686018427387904 := by
  rw [PRICE_PER_REQUEST_SOL, fp64, if_neg (by norm_num : ¬(1:ℚ)/1000 = 0)]
  rw [log2_eq_of_binade (r := (1:ℚ)/1000) (e := -10) (by norm_num) (by norm_num)
    (by norm_num)]
  have harg : (1:ℚ)/1000 / 2 ^ ((-10:ℤ) - 52) = 4611686018427387904/1000 := by
    norm_num
  rw [harg]
  have hfl : ⌊(4611686018427387904:ℚ)/1000⌋ = 4611686018427387 := by
    rw [Int.floor_eq_iff]
    norm_num
  have hrne : rne ((4611686018427387904:ℚ)/1000) = 4611686018427388 := by
    rw [rne, hfl]
    norm_num
  rw [hrne]
  norm_num

/-- The binary64 product `0.001 * 1_000_000_000` is exactly `1000000`: the
exact product exceeds `1000000` by `96000000 * 2 ^ (-62)`, less than half an
ulp at that magnitude, so rounding lands on the integer. -/
theorem priceLamports_eq : priceLamports = 1000000 := by
  rw [priceLamports, price_sol_eq, fp64, if_neg (by norm_num :
    ¬(4611686018427388:ℚ)/4611686018427387904 * 1000000000 = 0)]
  rw [log2_eq_of_binade (e := 19) (by norm_num) (by norm_num) (by norm_num)]
  have harg : (4611686018427388:ℚ)/4611686018427387904 * 1000000000 / 2 ^ ((19:ℤ) - 52)
      = 4611686018427388000000000/536870912 := by
    norm_num
  rw [harg]
  have hfl : ⌊(4611686018427388000000000:ℚ)/536870912⌋ = 8589934592000000 := by
    rw [Int.floor_eq_iff]
    norm_num
  have hrne : rne ((4611686018427388000000000:ℚ)/536870912) = 8589934592000000 := by
    rw [rne, hfl]
    norm_num
  rw [hrne]
  norm_num

/-- On the boundary input the unrounded weighted sum is 74.8. -/
theorem boundary_raw : riskScore 0 boundaryExploits = 374/5 := by
  have hrec : recentExploits 0 boundaryExploits = boundaryExploits := by
    simp only [recentExploits, boundaryExploits, recentLossExploit, List.filter]
    norm_num
  have htot : totalLoss boundaryExploits = 9600000 := by
    simp only [totalLoss, boundaryExploits, recentLossExploit, List.foldl]
    norm_num
  have hd : daysSinceLatest 0 boundaryExploits = 3 := by
    simp [daysSinceLatest, boundaryExploits, recentLossExploit]
    norm_num
  rw [riskScore, exploitFrequencyScore, totalLossScore, recencyScore, hrec, htot, hd]
  norm_num [min_def, boundaryExploits]

/-! ## Claims -/

/-- Claim C1 (amended): for every exploit record sequence, the recency factor
returned by `calculateRiskScore` is decided by the FIRST record of the
sequence — not by the most recent record by timestamp — with the claimed
7/30-day thresholds, and is 0 for the empty sequence. -/
theorem calculateRiskScore_recency_from_head (now : ℚ) (exs : List ExploitData)
    (protocol : String) :
    (calculateRiskScore now exs protocol).factors.recency = headRecencyScore now exs := by
  show round (recencyScore now exs) = headRecencyScore now exs
  cases exs with
  | nil => norm_num [recencyScore, daysSinceLatest, headRecencyScore]
  | cons e rest =>
    simp only [recencyScore, daysSinceLatest, headRecencyScore, List.head?]
    split_ifs <;> norm_num

/-- Claim C1 counterexample: a sequence whose first record is 100 days old
and whose second record is 3 days old gets recency factor 0 from the code,
while the claimed most-recent-by-timestamp rule yields 100. -/
theorem recency_ignores_latest_record :
    (calculateRiskScore 0 [olderExploit, newerExploit] "demo").factors.recency = 0 ∧
    specRecencyScore 0 [olderExploit, newerExploit] = 100 := by
  constructor
  · show round (recencyScore 0 [olderExploit, newerExploit]) = 0
    have hd : daysSinceLatest 0 [olderExploit, newerExploit] = 100 := by
      simp [daysSinceLatest, olderExploit]
      norm_num
    rw [recencyScore, hd]
    norm_num
  · simp only [specRecencyScore, List.foldl, olderExploit, newerExploit]
    norm_num [max_def]

/-- Claim C2 (amended): the risk level and recommendation returned by
`calculateRiskScore` are obtained by applying the 75/50/25 thresholds to the
UNROUNDED weighted sum, not to the returned rounded integer score. -/
theorem riskLevel_from_raw_score (now : ℚ) (exs : List ExploitData) (protocol : String) :
    (calculateRiskScore now exs protocol).risk_level =
      specLevelOfRawScore (riskScore now exs) ∧
    (calculateRiskScore now exs protocol).recommendation =
      specRecommendationOfRawScore (riskScore now exs) :=
  ⟨rfl, rfl⟩

/-- Claim C2 counterexample: on the boundary input the raw sum is 74.8, so the
returned score is 75, yet the returned level is HIGH with the CAUTION
recommendation — while applying the thresholds to the returned score 75, as
the claim states, would give CRITICAL and AVOID. -/
theorem level_vs_rounded_score_boundary :
    (calculateRiskScore 0 boundaryExploits "demo").score = 75 ∧
    (calculateRiskScore 0 boundaryExploits "demo").risk_level = RiskLevel.HIGH ∧
    specLevelOfScore (calculateRiskScore 0 boundaryExploits "demo").score =
      RiskLevel.CRITICAL ∧
    (calculateRiskScore 0 boundaryExploits "demo").recommendation =
      "CAUTION - Significant security concerns" ∧
    specRecommendationOfScore (calculateRiskScore 0 boundaryExploits "demo").score =
      "AVOID - High exploit risk detected" := by
  have hscore : (calculateRiskScore 0 boundaryExploits "demo").score = 75 := by
    show round (riskScore 0 boundaryExploits) = 75
    rw [boundary_raw]
    exact round_eq_of _ 75 (by norm_num) (by norm_num)
  refine ⟨hscore, ?_, ?_, ?_, ?_⟩
  · show riskLevel 0 boundaryExploits = RiskLevel.HIGH
    rw [riskLevel, boundary_raw]
    norm_num
  · rw [hscore]
    norm_num [specLevelOfScore]
  · show recommendation 0 boundaryExploits = _
    rw [recommendation, boundary_raw]
    norm_num
  · rw [hscore]
    norm_num [specRecommendationOfScore]

/-- Claim C3: when every loss is nonnegative, `calculateRiskScore` rounds
exactly at the three component scores and at the final weighted sum — the
factors are the rounded exact component values, the score is the rounded
exact weighted sum (no intermediate ratio is rounded), and the score is an
integer within 0..100. -/
theorem calculateRiskScore_rounding_points (now : ℚ) (exs : List ExploitData)
    (protocol : String) (hloss : ∀ e ∈ exs, 0 ≤ e.loss_usd) :
    (calculateRiskScore now exs protocol).factors.exploit_frequency =
      round (min 100 (((recentExploits now exs).length : ℚ) / 10 * 100)) ∧
    (calculateRiskScore now exs protocol).factors.total_loss =
      round (min 100 ((exs.map ExploitData.loss_usd).sum / 10000000 * 100)) ∧
    (calculateRiskScore now exs protocol).factors.recency =
      round (recencyScore now exs) ∧
    (calculateRiskScore now exs protocol).score =
      round (0.4 * exploitFrequencyScore now exs + 0.3 * totalLossScore exs
        + 0.3 * recencyScore now exs) ∧
    0 ≤ (calculateRiskScore now exs protocol).score ∧
    (calculateRiskScore now exs protocol).score ≤ 100 := by
  have hef0 : 0 ≤ exploitFrequencyScore now exs :=
    le_min (by positivity) (by norm_num)
  have hef1 : exploitFrequencyScore now exs ≤ 100 := min_le_right _ _
  have hsum0 : 0 ≤ totalLoss exs := by
    rw [totalLoss_eq_sum]
    refine List.sum_nonneg ?_
    intro x hx
    obtain ⟨e, he, rfl⟩ := List.mem_map.mp hx
    exact hloss e he
  have htl0 : 0 ≤ totalLossScore exs :=
    le_min (by positivity) (by norm_num)
  have htl1 : totalLossScore exs ≤ 100 := min_le_right _ _
  have hrc0 : 0 ≤ recencyScore now exs := by
    rw [recencyScore]; split_ifs <;> norm_num
  have hrc1 : recencyScore now exs ≤ 100 := by
    rw [recencyScore]; split_ifs <;> norm_num
  have hraw0 : 0 ≤ riskScore now exs := by
    rw [riskScore]; nlinarith
  have hraw1 : riskScore now exs ≤ 100 := by
    rw [riskScore]; nlinarith
  refine ⟨?_, ?_, rfl, ?_, ?_, ?_⟩
  · show round (exploitFrequencyScore now exs) = _
    rw [exploitFrequencyScore, min_comm]
  · show round (totalLossScore exs) = _
    rw [totalLossScore, totalLoss_eq_sum, min_comm]
  · show round (riskScore now exs) = _
    rw [riskScore]; ring_nf
  · show (0:ℤ) ≤ round (riskScore now exs)
    rw [round_eq]
    refine Int.le_floor.mpr ?_
    push_cast
    linarith
  · show round (riskScore now exs) ≤ 100
    rw [round_eq]
    have h := Int.floor_lt.mpr
      (show riskScore now exs + 1/2 < ((101:ℤ):ℚ) by push_cast; linarith)
    omega

/-- Witness for C3 at the spec example input. -/
theorem calculateRiskScore_rounding_points_witness :
    (∀ e ∈ [specExampleExploit 0], 0 ≤ e.loss_usd) ∧
    ((calculateRiskScore 0 [specExampleExploit 0] "demo").factors.exploit_frequency =
      round (min 100 (((recentExploits 0 [specExampleExploit 0]).length : ℚ) / 10 * 100)) ∧
    (calculateRiskScore 0 [specExampleExploit 0] "demo").factors.total_loss =
      round (min 100 (([specExampleExploit 0].map ExploitData.loss_usd).sum / 10000000 * 100)) ∧
    (calculateRiskScore 0 [specExampleExploit 0] "demo").factors.recency =
      round (recencyScore 0 [specExampleExploit 0]) ∧
    (calculateRiskScore 0 [specExampleExploit 0] "demo").score =
      round (0.4 * exploitFrequencyScore 0 [specExampleExploit 0]
        + 0.3 * totalLossScore [specExampleExploit 0]
        + 0.3 * recencyScore 0 [specExampleExploit 0]) ∧
    0 ≤ (calculateRiskScore 0 [specExampleExploit 0] "demo").score ∧
    (calculateRiskScore 0 [specExampleExploit 0] "demo").score ≤ 100) := by
  have h : ∀ e ∈ [specExampleExploit 0], 0 ≤ e.loss_usd := by
    intro e he
    rw [List.mem_singleton] at he
    subst he
    norm_num [specExampleExploit]
  exact ⟨h, calculateRiskScore_rounding_points 0 [specExampleExploit 0] "demo" h⟩

/-- Claim C4: on the single spec-example record (critical severity, 5M USD
loss, 3 days before now) the engine returns component scores 10/50/100, final
score 49 and level MEDIUM, for any `now` and any protocol name. -/
theorem calculateRiskScore_spec_example (now : ℚ) (protocol : String) :
    (calculateRiskScore now [specExampleExploit now] protocol).factors.exploit_frequency = 10 ∧
    (calculateRiskScore now [specExampleExploit now] protocol).factors.total_loss = 50 ∧
    (calculateRiskScore now [specExampleExploit now] protocol).factors.recency = 100 ∧
    (calculateRiskScore now [specExampleExploit now] protocol).score = 49 ∧
    (calculateRiskScore now [specExampleExploit now] protocol).risk_level =
      RiskLevel.MEDIUM := by
  have hrec : recentExploits now [specExampleExploit now] = [specExampleExploit now] := by
    unfold recentExploits
    rw [List.filter_cons_of_pos, List.filter_nil]
    exact decide_eq_true (by simp [specExampleExploit]; linarith)
  have hef : exploitFrequencyScore now [specExampleExploit now] = 10 := by
    rw [exploitFrequencyScore, hrec]
    norm_num [min_def]
  have htl : totalLossScore [specExampleExploit now] = 50 := by
    rw [totalLossScore]
    simp only [totalLoss, List.foldl, specExampleExploit]
    norm_num [min_def]
  have hd : daysSinceLatest now [specExampleExploit now] = 3 := by
    simp only [daysSinceLatest, List.head?, specExampleExploit]
    ring_nf
  have hrc : recencyScore now [specExampleExploit now] = 100 := by
    rw [recencyScore, hd]
    norm_num
  have hraw : riskScore now [specExampleExploit now] = 49 := by
    rw [riskScore, hef, htl, hrc]
    norm_num
  refine ⟨?_, ?_, ?_, ?_, ?_⟩
  · show round (exploitFrequencyScore now [specExampleExploit now]) = 10
    rw [hef]; norm_num
  · show round (totalLossScore [specExampleExploit now]) = 50
    rw [htl]; norm_num
  · show round (recencyScore now [specExampleExploit now]) = 100
    rw [hrc]; norm_num
  · show round (riskScore now [specExampleExploit now]) = 49
    rw [hraw]; norm_num
  · show riskLevel now [specExampleExploit now] = RiskLevel.MEDIUM
    rw [riskLevel, hraw]
    norm_num

/-- Claim C5: every resource descriptor of the discovery document carries
`maxAmountRequired = "1000000"`, for every request-derived base URL and
configured wallet, even though the value arises from the binary64 product
`0.001 * 1_000_000_000`. -/
theorem x402Discovery_maxAmountRequired (baseUrl payTo : String) :
    ((x402Discovery baseUrl payTo).accepts.map ResourceDescriptor.maxAmountRequired)
      = ["1000000", "1000000", "1000000"] := by
  have hstr : jsNumberToString priceLamports = "1000000" := by
    rw [priceLamports_eq, jsNumberToString]
    rw [if_pos (Rat.den_ofNat 1000000), Rat.num_ofNat]
    decide
  simp [x402Discovery, hstr]

/-- Claim C6: `fetchKamiyoExploits` never raises to its caller: a thrown
fetch yields the empty sequence, a successful fetch is returned as is (the
function is total in the model, so no other outcome exists). -/
theorem fetchKamiyoExploits_never_raises :
    (∀ msg : String, fetchKamiyoExploits (Except.error msg) = []) ∧
    (∀ exs : List ExploitData, fetchKamiyoExploits (Except.ok exs) = exs) :=
  ⟨fun _ => rfl, fun _ => rfl⟩

/-- Claim C7: an unlimited approval more than 180 days stale receives both
the `unlimited`/high and `stale`/medium flags under its
`token_address-spender_address` key (when that key belongs to it alone), and
a key all of whose approvals trigger no rule is absent from the mapping. -/
theorem detectRisks_unlimited_stale_and_omission (now : ℚ)
    (fetch : String → Except String (List ExploitData)) (scam : List String)
    (approvals : List TokenApproval) (a : TokenApproval) :
    (a ∈ approvals →
      (∀ b ∈ approvals, approvalKey b = approvalKey a → b = a) →
      a.is_unlimited = true → 180 < getDaysSince now a.last_updated →
      ∃ flags, detectRisks now fetch scam approvals (approvalKey a) = some flags ∧
        unlimitedFlag a ∈ flags ∧ staleFlag now a ∈ flags) ∧
    (∀ k, (∀ b ∈ approvals, approvalKey b = k →
        approvalRisks now fetch scam b = []) →
      detectRisks now fetch scam approvals k = none) := by
  constructor
  · intro hmem huniq hunl hstale
    have hu : unlimitedFlag a ∈ approvalRisks now fetch scam a := by
      rw [approvalRisks, if_pos hunl]
      exact List.mem_append_left _ (List.mem_append_left _
        (List.mem_append_left _ (List.mem_singleton_self _)))
    have hs : staleFlag now a ∈ approvalRisks now fetch scam a := by
      rw [approvalRisks, if_pos hstale]
      exact List.mem_append_left _ (List.mem_append_left _
        (List.mem_append_right _ (List.mem_singleton_self _)))
    have hne : approvalRisks now fetch scam a ≠ [] := List.ne_nil_of_mem hu
    refine ⟨approvalRisks now fetch scam a, ?_, hu, hs⟩
    rw [detectRisks]
    exact detect_foldl_found now fetch scam approvals _ a hmem huniq hne
  · intro k hk
    rw [detectRisks]
    exact detect_foldl_skip now fetch scam approvals _ k hk

/-- Witness for C7: the 200-day-old unlimited approval of the spec's test
gets both flags; a fresh limited approval to an unknown spender leaves its
key unmapped. -/
theorem detectRisks_unlimited_stale_witness :
    (staleUnlimitedApproval ∈ [staleUnlimitedApproval] ∧
     staleUnlimitedApproval.is_unlimited = true ∧
     (180:ℚ) < getDaysSince 17280000000 staleUnlimitedApproval.last_updated) ∧
    (∃ flags, detectRisks 17280000000 fetchAllFail [] [staleUnlimitedApproval]
        (approvalKey staleUnlimitedApproval) = some flags ∧
      unlimitedFlag staleUnlimitedApproval ∈ flags ∧
      staleFlag 17280000000 staleUnlimitedApproval ∈ flags) ∧
    detectRisks 17280000000 fetchAllFail [] [cleanApproval]
      (approvalKey cleanApproval) = none := by
  have hmem : staleUnlimitedApproval ∈ [staleUnlimitedApproval] :=
    List.mem_singleton_self _
  have huniq : ∀ b ∈ [staleUnlimitedApproval],
      approvalKey b = approvalKey staleUnlimitedApproval →
      b = staleUnlimitedApproval := by
    intro b hb _
    exact List.mem_singleton.mp hb
  have hstale : (180:ℚ) < getDaysSince 17280000000 staleUnlimitedApproval.last_updated := by
    norm_num [getDaysSince, staleUnlimitedApproval]
  have hcheck : checkProtocolExploitHistory 17280000000 fetchAllFail
      cleanApproval.spender_address = none := by
    unfold checkProtocolExploitHistory
    rw [show protocolMap cleanApproval.spender_address = none from by decide]
  have hclean : ∀ b ∈ [cleanApproval], approvalKey b = approvalKey cleanApproval →
      approvalRisks 17280000000 fetchAllFail [] b = [] := by
    intro b hb _
    rw [List.mem_singleton] at hb
    subst hb
    rw [approvalRisks, hcheck]
    rw [if_neg (by decide : ¬cleanApproval.is_unlimited = true)]
    rw [if_neg (by norm_num [getDaysSince, cleanApproval] :
      ¬(180:ℚ) < getDaysSince 17280000000 cleanApproval.last_updated)]
    rfl
  exact ⟨⟨hmem, rfl, hstale⟩,
    (detectRisks_unlimited_stale_and_omission 17280000000 fetchAllFail []
      [staleUnlimitedApproval] staleUnlimitedApproval).1 hmem huniq rfl hstale,
    (detectRisks_unlimited_stale_and_omission 17280000000 fetchAllFail []
      [cleanApproval] cleanApproval).2 (approvalKey cleanApproval) hclean⟩

/-- Claim C8: when the spender resolves through the router table and the
protocol's fetched history is nonempty, exactly one `exploited_protocol` flag
is produced, with severity critical when some exploit of the last 90 days is
critical or high, high when the last 90 days saw only lower-severity
exploits, and medium when all exploits are older than 90 days. -/
theorem checkProtocolExploitHistory_severity (now : ℚ)
    (fetch : String → Except String (List ExploitData))
    (spender protocol : String) (exs : List ExploitData)
    (hmap : protocolMap spender = some protocol)
    (hfetch : fetch protocol = Except.ok exs) (hne : exs ≠ []) :
    ∃ flag, checkProtocolExploitHistory now fetch spender = some flag ∧
      flag.type = RiskType.exploited_protocol ∧
      ((∃ e ∈ exs, now - 7776000000 < e.timestamp ∧
          (e.severity = Severity.critical ∨ e.severity = Severity.high)) →
        flag.severity = Severity.critical) ∧
      (((∃ e ∈ exs, now - 7776000000 < e.timestamp) ∧
          ¬∃ e ∈ exs, now - 7776000000 < e.timestamp ∧
            (e.severity = Severity.critical ∨ e.severity = Severity.high)) →
        flag.severity = Severity.high) ∧
      ((¬∃ e ∈ exs, now - 7776000000 < e.timestamp) →
        flag.severity = Severity.medium) := by
  have hlen : ¬exs.length = 0 := fun h => hne (List.length_eq_zero.mp h)
  have hrec : 0 < (exs.filter
      (fun e => now - 90 * 24 * 60 * 60 * 1000 < e.timestamp)).length ↔
      ∃ e ∈ exs, now - 7776000000 < e.timestamp := by
    rw [length_filter_pos_iff]
    constructor
    · rintro ⟨e, he, h⟩; exact ⟨e, he, by linarith⟩
    · rintro ⟨e, he, h⟩; exact ⟨e, he, by linarith⟩
  have hcrit : 0 < ((exs.filter
        (fun e => now - 90 * 24 * 60 * 60 * 1000 < e.timestamp)).filter
        (fun e => e.severity = Severity.critical ∨ e.severity = Severity.high)).length ↔
      ∃ e ∈ exs, now - 7776000000 < e.timestamp ∧
        (e.severity = Severity.critical ∨ e.severity = Severity.high) := by
    rw [length_filter_pos_iff]
    constructor
    · rintro ⟨e, he, h⟩
      obtain ⟨h1, h2⟩ := List.mem_filter.mp he
      refine ⟨e, h1, ?_, h⟩
      have h3 := of_decide_eq_true h2
      linarith
    · rintro ⟨e, he, h1, h2⟩
      refine ⟨e, List.mem_filter.mpr ⟨he, decide_eq_true ?_⟩, h2⟩
      linarith
  unfold checkProtocolExploitHistory
  simp only [hmap, hfetch, if_neg hlen]
  by_cases hr : 0 < (exs.filter
      (fun e => now - 90 * 24 * 60 * 60 * 1000 < e.timestamp)).length
  · by_cases hc : 0 < ((exs.filter
        (fun e => now - 90 * 24 * 60 * 60 * 1000 < e.timestamp)).filter
        (fun e => e.severity = Severity.critical ∨ e.severity = Severity.high)).length
    · refine ⟨_, by rw [if_pos hr, if_pos hc], rfl, fun _ => rfl, ?_, ?_⟩
      · rintro ⟨-, hn⟩
        exact absurd (hcrit.mp hc) hn
      · intro hn
        exact absurd (hrec.mp hr) hn
    · refine ⟨_, by rw [if_pos hr, if_neg hc], rfl, ?_, fun _ => rfl, ?_⟩
      · intro hx
        exact absurd (hcrit.mpr hx) hc
      · intro hn
        exact absurd (hrec.mp hr) hn
  · refine ⟨_, by rw [if_neg hr, if_pos (List.length_pos.mpr hne)], rfl, ?_, ?_,
      fun _ => rfl⟩
    · rintro ⟨e, he, h1, h2⟩
      exact absurd (hrec.mpr ⟨e, he, h1⟩) hr
    · rintro ⟨hx, -⟩
      exact absurd (hrec.mpr hx) hr

/-- Witness for C8: the checksummed uniswap-v2 router with one 3-day-old
critical exploit in the fetched history. -/
theorem checkProtocolExploitHistory_severity_witness :
    (protocolMap "0x7a250d5630B4cF539739dF2C5dAcb4c659F2488D" = some "uniswap-v2" ∧
     fetchUniswapHistory "uniswap-v2" = Except.ok [uniswapCriticalExploit] ∧
     [uniswapCriticalExploit] ≠ ([] : List ExploitData)) ∧
    (∃ flag, checkProtocolExploitHistory 0 fetchUniswapHistory
        "0x7a250d5630B4cF539739dF2C5dAcb4c659F2488D" = some flag ∧
      flag.type = RiskType.exploited_protocol ∧
      ((∃ e ∈ [uniswapCriticalExploit], (0:ℚ) - 7776000000 < e.timestamp ∧
          (e.severity = Severity.critical ∨ e.severity = Severity.high)) →
        flag.severity = Severity.critical) ∧
      (((∃ e ∈ [uniswapCriticalExploit], (0:ℚ) - 7776000000 < e.timestamp) ∧
          ¬∃ e ∈ [uniswapCriticalExploit], (0:ℚ) - 7776000000 < e.timestamp ∧
            (e.severity = Severity.critical ∨ e.severity = Severity.high)) →
        flag.severity = Severity.high) ∧
      ((¬∃ e ∈ [uniswapCriticalExploit], (0:ℚ) - 7776000000 < e.timestamp) →
        flag.severity = Severity.medium)) := by
  have hmap : protocolMap "0x7a250d5630B4cF539739dF2C5dAcb4c659F2488D"
      = some "uniswap-v2" := by decide
  have hfetch : fetchUniswapHistory "uniswap-v2"
      = Except.ok [uniswapCriticalExploit] := rfl
  have hne : [uniswapCriticalExploit] ≠ ([] : List ExploitData) := by simp
  exact ⟨⟨hmap, hfetch, hne⟩,
    checkProtocolExploitHistory_severity 0 fetchUniswapHistory
      "0x7a250d5630B4cF539739dF2C5dAcb4c659F2488D" "uniswap-v2"
      [uniswapCriticalExploit] hmap hfetch hne⟩

/-- Claim C9: the router-table lookup compares the spender address by exact,
case-sensitive equality — an address differing from a table key only in
letter casing resolves to no protocol and produces no `exploited_protocol`
flag — whereas the deny-list check matches on the lowercased address. -/
theorem protocolMap_case_sensitive (s k : String)
    (hk : k ∈ protocolMapKeys) (hlow : jsToLowerCase s = jsToLowerCase k)
    (hne : s ≠ k) :
    (protocolMap s = none ∧
      ∀ (now : ℚ) (fetch : String → Except String (List ExploitData)),
        checkProtocolExploitHistory now fetch s = none) ∧
    (∀ (now : ℚ) (fetch : String → Except String (List ExploitData))
        (scam : List String) (a : TokenApproval),
      scam.contains (jsToLowerCase a.spender_address) = true →
      suspiciousFlag ∈ approvalRisks now fetch scam a) := by
  have hpm : protocolMap s = none := by
    simp only [protocolMapKeys, List.mem_cons, List.not_mem_nil, or_false] at hk
    rcases hk with rfl | rfl | rfl | rfl | rfl | rfl <;>
    · rw [protocolMap]
      repeat rw [if_neg (fun h => by
        rw [h] at hlow hne
        first
        | exact hne rfl
        | exact absurd hlow (by decide))]
  refine ⟨⟨hpm, ?_⟩, ?_⟩
  · intro now fetch
    unfold checkProtocolExploitHistory
    simp only [hpm]
  · intro now fetch scam a hscam
    rw [approvalRisks]
    exact List.mem_append_right _ (by
      rw [if_pos hscam]
      exact List.mem_singleton_self _)

/-- Witness for C9: the all-lowercase form of the uniswap-v2 router key
resolves to no protocol and no flag, while a deny-listed lowercase entry
still flags the mixed-case spender. -/
theorem protocolMap_case_sensitive_witness :
    ("0x7a250d5630B4cF539739dF2C5dAcb4c659F2488D" ∈ protocolMapKeys ∧
     jsToLowerCase lowercasedUniswapRouter =
       jsToLowerCase "0x7a250d5630B4cF539739dF2C5dAcb4c659F2488D" ∧
     lowercasedUniswapRouter ≠ "0x7a250d5630B4cF539739dF2C5dAcb4c659F2488D") ∧
    protocolMap lowercasedUniswapRouter = none ∧
    checkProtocolExploitHistory 0 fetchUniswapHistory lowercasedUniswapRouter = none ∧
    suspiciousFlag ∈ approvalRisks 0 fetchUniswapHistory
      [jsToLowerCase routerApproval.spender_address] routerApproval := by
  have hk : "0x7a250d5630B4cF539739dF2C5dAcb4c659F2488D" ∈ protocolMapKeys := by decide
  have hlow : jsToLowerCase lowercasedUniswapRouter =
      jsToLowerCase "0x7a250d5630B4cF539739dF2C5dAcb4c659F2488D" := by decide
  have hne : lowercasedUniswapRouter ≠ "0x7a250d5630B4cF539739dF2C5dAcb4c659F2488D" := by
    decide
  have h := protocolMap_case_sensitive lowercasedUniswapRouter
    "0x7a250d5630B4cF539739dF2C5dAcb4c659F2488D" hk hlow hne
  exact ⟨⟨hk, hlow, hne⟩, h.1.1, h.1.2 0 fetchUniswapHistory,
    h.2 0 fetchUniswapHistory [jsToLowerCase routerApproval.spender_address]
      routerApproval (by decide)⟩

/-- Claim C10: the severity distribution has a key exactly for each severity
occurring in some record — no zero-count entries — and its counts sum to the
number of records. -/
theorem severity_distribution_support_and_total (now : ℚ)
    (exs : List ExploitData) (protocol : String) :
    (∀ s : Severity,
      (((calculateRiskScore now exs protocol).factors.severity_distribution s).isSome
        ↔ ∃ e ∈ exs, e.severity = s)) ∧
    ([Severity.critical, Severity.high, Severity.medium, Severity.low].map
      (fun s =>
        ((calculateRiskScore now exs protocol).factors.severity_distribution s).getD 0)).sum
      = exs.length := by
  have hd : (calculateRiskScore now exs protocol).factors.severity_distribution
      = severityDist exs := rfl
  have hcount : ∀ s, (severityDist exs s).getD 0
      = (exs.filter (fun e => e.severity = s)).length := by
    intro s
    rw [severityDist_eq]
    by_cases hc : (exs.filter (fun e => e.severity = s)).length = 0 <;> simp [hc]
  constructor
  · intro s
    rw [hd, severityDist_eq]
    by_cases hc : (exs.filter (fun e => e.severity = s)).length = 0
    · rw [if_pos hc]
      simp only [Option.isSome_none, Bool.false_eq_true, false_iff]
      rintro ⟨e, he, hs⟩
      have hmem : e ∈ exs.filter (fun e => e.severity = s) :=
        List.mem_filter.mpr ⟨he, by simp [hs]⟩
      rw [List.length_eq_zero] at hc
      rw [hc] at hmem
      exact List.not_mem_nil e hmem
    · rw [if_neg hc]
      simp only [Option.isSome_some, true_iff]
      have hpos : 0 < (exs.filter (fun e => e.severity = s)).length :=
        Nat.pos_of_ne_zero hc
      obtain ⟨e, he⟩ := List.exists_mem_of_ne_nil _ (List.length_pos.mp hpos)
      obtain ⟨hee, hsv⟩ := List.mem_filter.mp he
      exact ⟨e, hee, of_decide_eq_true hsv⟩
  · rw [hd]
    simp only [List.map_cons, List.map_nil, List.sum_cons, List.sum_nil, hcount]
    have hpart := severity_count_partition exs
    omega

/-- Witness for C10 at a concrete input. -/
theorem severity_distribution_support_and_total_witness :
    (∀ s : Severity,
      (((calculateRiskScore 0 [olderExploit, newerExploit] "demo").factors.severity_distribution s).isSome
        ↔ ∃ e ∈ [olderExploit, newerExploit], e.severity = s)) ∧
    ([Severity.critical, Severity.high, Severity.medium, Severity.low].map
      (fun s =>
        (((calculateRiskScore 0 [olderExploit, newerExploit] "demo").factors.severity_distribution s)).getD 0)).sum
      = [olderExploit, newerExploit].length :=
  severity_distribution_support_and_total 0 [olderExploit, newerExploit] "demo"

end SecurityOracle
